import Mathlib

/-!
Shallow embedding of the job-queue subsystem of the Learning-Journal
repository (the `redis-rq` projects): the Job Record Store
(`LoggingService` over the `JobLog` SQLModel table), the Broker Client
(`RQService`), the Job Lifecycle Coordinator (`TaskService`) and the
Callback Ingress (`job_callback` with `JobCallbackPayload`).

Conventions of the embedding:
  - UUIDs are opaque identifiers, modelled as `Nat`.
  - Timestamps (`datetime.utcnow()`) are modelled as `Nat` and supplied
    explicitly as a `now` argument at each call that reads the clock.
  - The database session is modelled by explicit state passing over
    `Store := List JobLog`; a raised exception after `rollback()` is an
    `Except.error` value returned together with the unchanged store, and
    a commit that the storage engine refuses is modelled by a `commitOk`
    flag (the staged writes are discarded on failure, as `rollback()`
    does in the source).
  - Python truthiness of an optional string (`if result_message:`) is
    `strTruthy`: `None` and the empty string are falsy.
  - Connectivity to Redis is an oracle `Nat → Option String` giving, for
    each connection attempt index, `none` on success or `some e` for the
    underlying error the source would catch.
-/

/-- One row of the `job_log` table (`JobLog` in
`app/infrastructure/database.py`). -/
structure JobLog where
  job_id : Nat
  status : String
  filename : Option String
  notion_database_id : Option String
  created_at : Nat
  completed_at : Option Nat
  result_message : Option String
  notion_page_url : Option String
deriving DecidableEq, Repr

/-- The committed contents of the `job_log` table. -/
abbrev Store := List JobLog

/-- Errors raised by `LoggingService` (`DatabaseError` in the source,
split by the code path that raises it: the duplicate-create path versus
the generic storage-failure path). -/
inductive DbError where
  | alreadyExists (job_id : Nat)
  | storageError (operation : String)
deriving DecidableEq, Repr

/-- `self.db_session.get(JobLog, job_id)`: lookup by primary key. -/
def dbGet (s : Store) (job_id : Nat) : Option JobLog :=
  s.find? (fun x => x.job_id == job_id)

/-- Python truthiness of an optional string: `None` and `""` are falsy. -/
def strTruthy : Option String → Bool
  | none => false
  | some m => m != ""

/-- `LoggingService.create_job_log`: fails with the duplicate-create
`DatabaseError` if a row for `job_id` exists; otherwise stages a new row
with `status="queued"` and `completed_at=None` and commits it. A failing
commit is rolled back and surfaces as the generic `DatabaseError`. -/
def create_job_log (s : Store) (now : Nat) (commitOk : Bool)
    (job_id : Nat) (filename notion_database_id : Option String) :
    Store × Except DbError JobLog :=
  match dbGet s job_id with
  | some _ => (s, .error (.alreadyExists job_id))
  | none =>
    let new : JobLog :=
      { job_id := job_id
        status := "queued"
        filename := filename
        notion_database_id := notion_database_id
        created_at := now
        completed_at := none
        result_message := none
        notion_page_url := none }
    if commitOk then (s ++ [new], .ok new)
    else (s, .error (.storageError "create_job_log"))

/-- The in-place mutation performed by `LoggingService.update_job_status`
on a found row: `status` is overwritten, `completed_at` is set to the
current time unconditionally, and the result fields are overwritten only
when the corresponding argument is truthy. -/
def updatedLog (j : JobLog) (now : Nat) (status : String)
    (result_message notion_page_url : Option String) : JobLog :=
  { j with
    status := status
    completed_at := some now
    result_message :=
      if strTruthy result_message then result_message else j.result_message
    notion_page_url :=
      if strTruthy notion_page_url then notion_page_url else j.notion_page_url }

/-- `LoggingService.update_job_status`: returns `none` (no write) when the
row is absent; otherwise applies `updatedLog` and commits. A failing
commit is rolled back and surfaces as the generic `DatabaseError`. -/
def update_job_status (s : Store) (now : Nat) (commitOk : Bool)
    (job_id : Nat) (status : String)
    (result_message notion_page_url : Option String) :
    Store × Except DbError (Option JobLog) :=
  match dbGet s job_id with
  | none => (s, .ok none)
  | some j =>
    let j' := updatedLog j now status result_message notion_page_url
    if commitOk then
      (s.map (fun x => if x.job_id == job_id then j' else x), .ok (some j'))
    else (s, .error (.storageError "update_job_status"))

/-- `LoggingService.get_job_log`: a plain primary-key read. -/
def get_job_log (s : Store) (job_id : Nat) : Option JobLog :=
  dbGet s job_id

/-- `TaskService.get_job_status`: returns the found row's fields, or
`none` when the row is absent. -/
def get_job_status (s : Store) (job_id : Nat) : Option JobLog :=
  get_job_log s job_id

/-- The retry configuration of `RQService.__init__`: `max_retries = 3`,
`retry_delay = 1.0` second, `max_retry_delay = 30.0` seconds. All
concrete delay values reachable from these defaults are whole seconds,
so delays are modelled as `Nat` seconds. -/
structure RetryConfig where
  max_retries : Nat := 3
  retry_delay : Nat := 1
  max_retry_delay : Nat := 30
deriving DecidableEq, Repr

/-- The exponential-backoff delay of `RQService._initialize_connection`:
`min(self.retry_delay * (2 ** attempt), self.max_retry_delay)`. -/
def backoffDelay (cfg : RetryConfig) (attempt : Nat) : Nat :=
  min (cfg.retry_delay * 2 ^ attempt) cfg.max_retry_delay

/-- Observable outcome of `RQService._initialize_connection`: either the
connection is established, or a `QueueConnectionError` carrying the last
underlying error is raised. In both cases the number of connection
attempts made and the total time slept in backoff are recorded. -/
inductive InitOutcome where
  | connected (attempts : Nat) (totalDelay : Nat)
  | failed (lastError : Option String) (attempts : Nat) (totalDelay : Nat)
deriving DecidableEq, Repr

/-- The body of the `for attempt in range(self.max_retries)` loop of
`_initialize_connection`. `attemptFails` is the connectivity oracle:
`attemptFails i = none` means attempt `i` connects and pings
successfully, `some e` means it raises one of the caught Redis errors.
The source sleeps `backoffDelay` only when `attempt < max_retries - 1`,
i.e. never after the final attempt. -/
def initializeConnectionAux (cfg : RetryConfig)
    (attemptFails : Nat → Option String) :
    (attempt remaining : Nat) → (lastError : Option String) →
    (attempts totalDelay : Nat) → InitOutcome
  | _, 0, lastError, attempts, totalDelay =>
      .failed lastError attempts totalDelay
  | attempt, r + 1, _lastError, attempts, totalDelay =>
    match attemptFails attempt with
    | none => .connected (attempts + 1) totalDelay
    | some e =>
      let d := if attempt < cfg.max_retries - 1 then backoffDelay cfg attempt
               else 0
      initializeConnectionAux cfg attemptFails (attempt + 1) r (some e)
        (attempts + 1) (totalDelay + d)

/-- `RQService._initialize_connection`: run the retry loop from attempt 0
with `max_retries` attempts available, no last error, and nothing slept. -/
def initializeConnection (cfg : RetryConfig)
    (attemptFails : Nat → Option String) : InitOutcome :=
  initializeConnectionAux cfg attemptFails 0 cfg.max_retries none 0 0

/-- Result of one call to `self._queue.enqueue(...)` as the surrounding
`try/except` discriminates it: success, a caught Redis connectivity
error (`ConnectionError`/`TimeoutError`/`RedisError`), or any other
exception. -/
inductive EnqAttempt where
  | ok
  | connErr (e : String)
  | otherErr (e : String)
deriving DecidableEq, Repr

/-- The external behaviour visible to one `RQService.enqueue_job` call:
the outcome of the first `queue.enqueue`, the connectivity oracle used
by the `_reconnect_with_retry` → `_initialize_connection` retries, and
the outcome of the post-reconnection retry `queue.enqueue`. -/
structure BrokerEnv where
  firstEnqueue : EnqAttempt
  reconnect : Nat → Option String
  retryEnqueue : EnqAttempt

/-- How an `enqueue_job` call terminates: a successful return, the
immediate `QueueConnectionError("Queue not initialized")`, or a raised
`JobEnqueueError`. -/
inductive EnqOutcome where
  | success
  | notInitialized
  | enqueueError
deriving DecidableEq, Repr

/-- Observable result of `RQService.enqueue_job`: its termination mode,
the number of `_reconnect_with_retry` cycles performed, and the number
of `queue.enqueue` calls made. -/
structure EnqueueResult where
  outcome : EnqOutcome
  reconnectCalls : Nat
  enqueueAttempts : Nat
deriving DecidableEq, Repr

/-- `RQService.enqueue_job`. If `_queue` is unset, raise
`QueueConnectionError` at once. Otherwise try to enqueue; on a caught
Redis connectivity error run exactly one `_reconnect_with_retry` and, if
it reconnects, exactly one retry enqueue — any failure inside that inner
`try` (a reconnect exhausting its retries included) raises
`JobEnqueueError`; a non-connectivity error from the first enqueue
raises `JobEnqueueError` directly. -/
def enqueue_job (initialized : Bool) (cfg : RetryConfig) (env : BrokerEnv) :
    EnqueueResult :=
  if !initialized then ⟨.notInitialized, 0, 0⟩
  else
    match env.firstEnqueue with
    | .ok => ⟨.success, 0, 1⟩
    | .otherErr _ => ⟨.enqueueError, 0, 1⟩
    | .connErr _ =>
      match initializeConnection cfg env.reconnect with
      | .failed _ _ _ => ⟨.enqueueError, 1, 1⟩
      | .connected _ _ =>
        match env.retryEnqueue with
        | .ok => ⟨.success, 1, 2⟩
        | .connErr _ => ⟨.enqueueError, 1, 2⟩
        | .otherErr _ => ⟨.enqueueError, 1, 2⟩

/-- Errors surfaced by `TaskService.create_and_enqueue_job` (2--Kiro):
the `ValueError` of `_read_file_contents` on an empty upload, a
re-raised `DatabaseError` from `create_job_log`, or a re-raised queue
error (`QueueConnectionError`/`JobEnqueueError`) from `enqueue_job`. -/
inductive SubmitError where
  | validationError
  | dbError (e : DbError)
  | enqueueFailed
deriving DecidableEq, Repr

/-- `JobCreationResponse` of `app/domain/schemas.py`. -/
structure JobCreationResponse where
  job_id : Nat
  status : String
deriving DecidableEq, Repr

/-- `TaskService.create_and_enqueue_job` (2--Kiro): generate a `job_id`
when none is supplied, reject an empty payload with `ValueError`, create
the job-log row, then enqueue; every failure is re-raised and nothing is
rolled back across steps. The broker queue is modelled as the list of
enqueued job ids; `enqueueOk` tells whether the `enqueue_job` call
returns or raises. The payload bytes are modelled as `List Nat`. -/
def create_and_enqueue_job (s : Store) (q : List Nat) (now : Nat)
    (commitOk enqueueOk : Bool) (payload : List Nat)
    (filename : Option String) (suppliedId : Option Nat) (freshId : Nat) :
    Store × List Nat × Except SubmitError JobCreationResponse :=
  let job_id := suppliedId.getD freshId
  if payload.isEmpty then (s, q, .error .validationError)
  else
    match create_job_log s now commitOk job_id filename none with
    | (s', .error e) => (s', q, .error (.dbError e))
    | (s', .ok _) =>
      if enqueueOk then (s', q ++ [job_id], .ok ⟨job_id, "queued"⟩)
      else (s', q, .error .enqueueFailed)

/-- `JobCallbackPayload` of `app/domain/schemas.py`: `status` is a
required plain `str`; `message` and `notion_page_url` are optional. No
validator constrains the value of `status`. -/
structure JobCallbackPayload where
  status : String
  message : Option String
  notion_page_url : Option String
deriving DecidableEq, Repr

/-- Pydantic validation of the callback body: the only check on `status`
is that the field is present (and a string); any string value parses. -/
def parseCallbackPayload (status message notion_page_url : Option String) :
    Except String JobCallbackPayload :=
  match status with
  | none => .error "field required: status"
  | some st => .ok ⟨st, message, notion_page_url⟩

/-- HTTP-level outcome of the `job_callback` endpoint. -/
inductive CallbackResult where
  | ok (job_id : Nat) (status : String)
  | notFound (job_id : Nat)
  | serverError
deriving DecidableEq, Repr

/-- `job_callback` of `app/api/v1/jobs.py` (after token verification):
pass the parsed payload's fields straight to `update_job_status`; a
`none` row maps to 404, a storage failure to 500, success to 200. -/
def job_callback (s : Store) (now : Nat) (commitOk : Bool) (job_id : Nat)
    (payload : JobCallbackPayload) : Store × CallbackResult :=
  match update_job_status s now commitOk job_id payload.status
      payload.message payload.notion_page_url with
  | (s', .ok none) => (s', .notFound job_id)
  | (s', .ok (some _)) => (s', .ok job_id payload.status)
  | (s', .error _) => (s', .serverError)

/-! ### Helper lemmas about the store -/

lemma dbGet_append_singleton (s : Store) (new : JobLog) (jid : Nat)
    (h : dbGet s jid = none) (hid : new.job_id = jid) :
    dbGet (s ++ [new]) jid = some new := by
  unfold dbGet at *
  rw [List.find?_append, h]
  simp [List.find?, hid]

lemma dbGet_map_replace (s : Store) (jid : Nat) (j j' : JobLog)
    (h : dbGet s jid = some j) (hid : j'.job_id = jid) :
    dbGet (s.map fun x => if x.job_id == jid then j' else x) jid = some j' := by
  induction s with
  | nil => simp [dbGet] at h
  | cons x xs ih =>
    unfold dbGet at h ⊢
    cases hx : (x.job_id == jid) with
    | true =>
      simp only [List.map_cons, hx, if_true]
      exact List.find?_cons_of_pos _ (by simp [hid])
    | false =>
      rw [List.find?_cons_of_neg _ (by simp [hx])] at h
      simp only [List.map_cons, hx, Bool.false_eq_true, if_false]
      rw [List.find?_cons_of_neg _ (by simp [hx])]
      exact ih h

lemma filter_eq_nil_of_dbGet_none (s : Store) (jid : Nat)
    (h : dbGet s jid = none) :
    s.filter (fun x => x.job_id == jid) = [] := by
  unfold dbGet at h
  rw [List.find?_eq_none] at h
  exact List.filter_eq_nil_iff.mpr h

lemma dbGet_job_id (s : Store) (jid : Nat) (j : JobLog)
    (h : dbGet s jid = some j) : j.job_id = jid := by
  unfold dbGet at h
  simpa using List.find?_some h

lemma update_job_status_found (s : Store) (now : Nat) (jid : Nat)
    (st : String) (msg url : Option String) (j : JobLog)
    (h : dbGet s jid = some j) :
    update_job_status s now true jid st msg url =
      (s.map fun x => if x.job_id == jid then updatedLog j now st msg url
        else x, .ok (some (updatedLog j now st msg url))) := by
  simp [update_job_status, h]

/-! ### Claims about the Coordinator -/

/-- C7: a submit call whose payload bytes are empty fails with
`ValidationError` (the `ValueError` of `_read_file_contents`), creates
no JobRecord and enqueues no task: the store and the broker queue are
returned exactly as they were. -/
theorem empty_payload_rejected (s : Store) (q : List Nat) (now : Nat)
    (commitOk enqueueOk : Bool) (filename : Option String)
    (suppliedId : Option Nat) (freshId : Nat) :
    create_and_enqueue_job s q now commitOk enqueueOk [] filename
        suppliedId freshId = (s, q, .error .validationError) := by
  simp [create_and_enqueue_job]

/-- C6: when the enqueue step fails after `create_job_log` succeeded, the
submit call surfaces the error, yet the JobRecord exists with status
`"queued"`: the store holds exactly the created row appended, nothing is
rolled back or moved to another status, and the broker queue is
unchanged. -/
theorem enqueue_failure_leaves_queued_record (s : Store) (q : List Nat)
    (now : Nat) (payload : List Nat) (filename : Option String) (jid : Nat)
    (hp : payload ≠ []) (hnew : dbGet s jid = none) :
    create_and_enqueue_job s q now true false payload filename (some jid) 0 =
      (s ++ [⟨jid, "queued", filename, none, now, none, none, none⟩], q,
        .error .enqueueFailed) ∧
    dbGet (s ++ [⟨jid, "queued", filename, none, now, none, none, none⟩]) jid
      = some ⟨jid, "queued", filename, none, now, none, none, none⟩ := by
  constructor
  · simp [create_and_enqueue_job, create_job_log, hnew, hp]
  · exact dbGet_append_singleton s _ jid hnew rfl

/-- C6 witness at a concrete input. -/
theorem enqueue_failure_leaves_queued_record_witness :
    create_and_enqueue_job [] [7] 4 true false [255, 216] (some "f.jpg")
        (some 1) 0 =
      ([⟨1, "queued", some "f.jpg", none, 4, none, none, none⟩], [7],
        .error .enqueueFailed) ∧
    dbGet [⟨1, "queued", some "f.jpg", none, 4, none, none, none⟩] 1
      = some ⟨1, "queued", some "f.jpg", none, 4, none, none, none⟩ :=
  enqueue_failure_leaves_queued_record [] [7] 4 [255, 216] (some "f.jpg") 1
    (by decide) (by decide)

/-- C3: submitting the same caller-supplied `job_id` twice yields the
duplicate-create conflict error on the second call, the second call
leaves the store exactly as the first call left it (no overwrite), and
exactly one row for that `job_id` exists afterward. -/
theorem duplicate_submission_conflict (s : Store) (q : List Nat)
    (now₁ now₂ : Nat) (payload : List Nat) (fn₁ fn₂ : Option String)
    (jid freshId : Nat) (hp : payload ≠ []) (hnew : dbGet s jid = none) :
    (create_and_enqueue_job
        (create_and_enqueue_job s q now₁ true true payload fn₁ (some jid)
          freshId).1
        (create_and_enqueue_job s q now₁ true true payload fn₁ (some jid)
          freshId).2.1
        now₂ true true payload fn₂ (some jid) freshId).2.2
      = .error (.dbError (.alreadyExists jid)) ∧
    (create_and_enqueue_job
        (create_and_enqueue_job s q now₁ true true payload fn₁ (some jid)
          freshId).1
        (create_and_enqueue_job s q now₁ true true payload fn₁ (some jid)
          freshId).2.1
        now₂ true true payload fn₂ (some jid) freshId).1
      = (create_and_enqueue_job s q now₁ true true payload fn₁ (some jid)
          freshId).1 ∧
    ((create_and_enqueue_job
        (create_and_enqueue_job s q now₁ true true payload fn₁ (some jid)
          freshId).1
        (create_and_enqueue_job s q now₁ true true payload fn₁ (some jid)
          freshId).2.1
        now₂ true true payload fn₂ (some jid) freshId).1.filter
      (fun x => x.job_id == jid)).length = 1 := by
  have hnew' : dbGet (s ++ [⟨jid, "queued", fn₁, none, now₁, none, none, none⟩])
      jid = some ⟨jid, "queued", fn₁, none, now₁, none, none, none⟩ :=
    dbGet_append_singleton s _ jid hnew rfl
  have h1 : create_and_enqueue_job s q now₁ true true payload fn₁ (some jid)
      freshId =
      (s ++ [⟨jid, "queued", fn₁, none, now₁, none, none, none⟩], q ++ [jid],
        .ok ⟨jid, "queued"⟩) := by
    simp [create_and_enqueue_job, create_job_log, hnew, hp]
  rw [h1]
  have h2 : create_and_enqueue_job
      (s ++ [⟨jid, "queued", fn₁, none, now₁, none, none, none⟩]) (q ++ [jid])
      now₂ true true payload fn₂ (some jid) freshId =
      (s ++ [⟨jid, "queued", fn₁, none, now₁, none, none, none⟩], q ++ [jid],
        .error (.dbError (.alreadyExists jid))) := by
    simp [create_and_enqueue_job, create_job_log, hnew', hp]
  rw [h2]
  refine ⟨rfl, rfl, ?_⟩
  rw [List.filter_append, filter_eq_nil_of_dbGet_none s jid hnew]
  simp [List.filter]

/-- C3 witness at a concrete input. -/
theorem duplicate_submission_conflict_witness :
    (create_and_enqueue_job
        (create_and_enqueue_job [] [] 3 true true [1] (some "a.jpg") (some 9)
          0).1
        (create_and_enqueue_job [] [] 3 true true [1] (some "a.jpg") (some 9)
          0).2.1
        4 true true [1] (some "b.jpg") (some 9) 0).2.2
      = .error (.dbError (.alreadyExists 9)) ∧
    (create_and_enqueue_job
        (create_and_enqueue_job [] [] 3 true true [1] (some "a.jpg") (some 9)
          0).1
        (create_and_enqueue_job [] [] 3 true true [1] (some "a.jpg") (some 9)
          0).2.1
        4 true true [1] (some "b.jpg") (some 9) 0).1
      = (create_and_enqueue_job [] [] 3 true true [1] (some "a.jpg") (some 9)
          0).1 ∧
    ((create_and_enqueue_job
        (create_and_enqueue_job [] [] 3 true true [1] (some "a.jpg") (some 9)
          0).1
        (create_and_enqueue_job [] [] 3 true true [1] (some "a.jpg") (some 9)
          0).2.1
        4 true true [1] (some "b.jpg") (some 9) 0).1.filter
      (fun x => x.job_id == 9)).length = 1 :=
  duplicate_submission_conflict [] [] 3 4 [1] (some "a.jpg") (some "b.jpg") 9 0
    (by decide) (by decide)

/-! ### Claims about the Job Record Store -/

/-- C4 counterexample: `"processing"` is not a terminal status, yet a
single `update_job_status` call with it sets `completed_at` on a freshly
created record whose `completed_at` was null. The claim that no
updateStatus call with a non-terminal status sets `completed_at` is
therefore false on the code. -/
theorem nonterminal_update_sets_completed_at :
    "processing" ≠ "success" ∧ "processing" ≠ "failure" ∧
    (create_job_log [] 0 true 1 none none).2 =
      .ok ⟨1, "queued", none, none, 0, none, none, none⟩ ∧
    update_job_status [⟨1, "queued", none, none, 0, none, none, none⟩] 5 true
        1 "processing" none none =
      ([⟨1, "processing", none, none, 0, some 5, none, none⟩],
        .ok (some ⟨1, "processing", none, none, 0, some 5, none, none⟩)) ∧
    (some 5 : Option Nat) ≠ none := by
  refine ⟨by decide, by decide, rfl, rfl, by decide⟩

/-- C4 amended: `completed_at` is null at creation, and every successful
`update_job_status` call sets it to that call's current time
unconditionally — whatever the status, terminal or not — and a later
successful call overwrites it with its own time (the source's
`job_log.completed_at = datetime.utcnow()` runs on every update; the
spec flags this in its design notes). -/
theorem completed_at_refreshed_on_every_update (s : Store)
    (now₀ now now' : Nat) (jid : Nat) (fn ndb : Option String)
    (st st' : String) (msg url msg' url' : Option String)
    (hnone : dbGet s jid = none) :
    ∃ j₀ j₁ j₂,
      (create_job_log s now₀ true jid fn ndb).2 = .ok j₀ ∧
      j₀.completed_at = none ∧
      (update_job_status (create_job_log s now₀ true jid fn ndb).1 now true
          jid st msg url).2 = .ok (some j₁) ∧
      j₁.completed_at = some now ∧
      (update_job_status
          (update_job_status (create_job_log s now₀ true jid fn ndb).1 now
            true jid st msg url).1 now' true jid st' msg' url').2
        = .ok (some j₂) ∧
      j₂.completed_at = some now' := by
  have hcreate : create_job_log s now₀ true jid fn ndb =
      (s ++ [(⟨jid, "queued", fn, ndb, now₀, none, none, none⟩ : JobLog)],
        .ok (⟨jid, "queued", fn, ndb, now₀, none, none, none⟩ : JobLog)) := by
    simp [create_job_log, hnone]
  have hget₁ : dbGet
      (s ++ [(⟨jid, "queued", fn, ndb, now₀, none, none, none⟩ : JobLog)]) jid
      = some (⟨jid, "queued", fn, ndb, now₀, none, none, none⟩ : JobLog) :=
    dbGet_append_singleton s _ jid hnone rfl
  have hget₂ : dbGet
      ((s ++ [(⟨jid, "queued", fn, ndb, now₀, none, none, none⟩ :
          JobLog)]).map
        (fun x => if x.job_id == jid then
          updatedLog ⟨jid, "queued", fn, ndb, now₀, none, none, none⟩ now st
            msg url
          else x)) jid
      = some (updatedLog ⟨jid, "queued", fn, ndb, now₀, none, none, none⟩ now
          st msg url) :=
    dbGet_map_replace _ jid _ _ hget₁ rfl
  refine ⟨⟨jid, "queued", fn, ndb, now₀, none, none, none⟩,
    updatedLog ⟨jid, "queued", fn, ndb, now₀, none, none, none⟩ now st msg
      url,
    updatedLog (updatedLog ⟨jid, "queued", fn, ndb, now₀, none, none, none⟩
      now st msg url) now' st' msg' url', ?_, rfl, ?_, rfl, ?_, rfl⟩
  · rw [hcreate]
  · rw [hcreate]
    dsimp only
    rw [update_job_status_found _ now jid st msg url _ hget₁]
  · rw [hcreate]
    dsimp only
    rw [update_job_status_found _ now jid st msg url _ hget₁]
    dsimp only
    rw [update_job_status_found _ now' jid st' msg' url' _ hget₂]

/-- C4 amended witness at a concrete input. -/
theorem completed_at_refreshed_on_every_update_witness :
    ∃ j₀ j₁ j₂,
      (create_job_log [] 0 true 2 (some "r.jpg") none).2 = .ok j₀ ∧
      j₀.completed_at = none ∧
      (update_job_status (create_job_log [] 0 true 2 (some "r.jpg") none).1 5
          true 2 "processing" none none).2 = .ok (some j₁) ∧
      j₁.completed_at = some 5 ∧
      (update_job_status
          (update_job_status (create_job_log [] 0 true 2 (some "r.jpg")
            none).1 5 true 2 "processing" none none).1 9 true 2 "success"
          (some "ok") none).2 = .ok (some j₂) ∧
      j₂.completed_at = some 9 :=
  completed_at_refreshed_on_every_update [] 0 5 9 2 (some "r.jpg") none
    "processing" "success" none none (some "ok") none (by decide)

/-- C9: a successful `update_job_status` on an existing record keeps the
stored `result_message` (resp. `notion_page_url`) whenever the supplied
argument is absent or empty, overwrites them when non-empty, and never
changes `job_id`, `filename`, `created_at` or `notion_database_id`; the
only fields it writes are `status`, `completed_at` and the truthy result
fields. -/
theorem partial_update_preserves_fields (s : Store) (now : Nat) (jid : Nat)
    (st : String) (msg url : Option String) (j : JobLog)
    (hfound : dbGet s jid = some j) :
    ∃ j', update_job_status s now true jid st msg url =
        (s.map fun x => if x.job_id == jid then j' else x, .ok (some j')) ∧
      (strTruthy msg = false → j'.result_message = j.result_message) ∧
      (strTruthy url = false → j'.notion_page_url = j.notion_page_url) ∧
      (strTruthy msg = true → j'.result_message = msg) ∧
      (strTruthy url = true → j'.notion_page_url = url) ∧
      j'.job_id = j.job_id ∧
      j'.filename = j.filename ∧
      j'.created_at = j.created_at ∧
      j'.notion_database_id = j.notion_database_id ∧
      j'.status = st ∧
      j'.completed_at = some now := by
  refine ⟨updatedLog j now st msg url, ?_, ?_, ?_, ?_, ?_, rfl, rfl, rfl, rfl,
    rfl, rfl⟩
  · simp [update_job_status, hfound]
  · intro h; simp [updatedLog, h]
  · intro h; simp [updatedLog, h]
  · intro h; simp [updatedLog, h]
  · intro h; simp [updatedLog, h]

/-- C9 witness at a concrete input: an update with an empty message and
an absent url preserves both previously stored result fields. -/
theorem partial_update_preserves_fields_witness :
    ∃ j', update_job_status
        [⟨3, "success", some "f.jpg", none, 1, some 2, some "done",
          some "http://p"⟩] 8 true 3 "failure" (some "") none =
        ([⟨3, "success", some "f.jpg", none, 1, some 2, some "done",
          some "http://p"⟩].map fun x => if x.job_id == 3 then j' else x,
          .ok (some j')) ∧
      (strTruthy (some "") = false → j'.result_message = some "done") ∧
      (strTruthy (none : Option String) = false →
        j'.notion_page_url = some "http://p") ∧
      (strTruthy (some "") = true → j'.result_message = some "") ∧
      (strTruthy (none : Option String) = true → j'.notion_page_url = none) ∧
      j'.job_id = 3 ∧
      j'.filename = some "f.jpg" ∧
      j'.created_at = 1 ∧
      j'.notion_database_id = none ∧
      j'.status = "failure" ∧
      j'.completed_at = some 8 :=
  partial_update_preserves_fields
    [⟨3, "success", some "f.jpg", none, 1, some 2, some "done",
      some "http://p"⟩] 8 3 "failure" (some "") none
    ⟨3, "success", some "f.jpg", none, 1, some 2, some "done",
      some "http://p"⟩ (by decide)

/-- C8: after a successful `update_job_status(job_id, "success", "ok",
"http://x")` on an existing record, `get_job_status(job_id)` reads back
a record with `status="success"`, `result_message="ok"`,
`notion_page_url="http://x"` and a non-null `completed_at`. -/
theorem roundtrip_success_status (s : Store) (now : Nat) (jid : Nat)
    (j : JobLog) (hfound : dbGet s jid = some j) :
    ∃ s' j', update_job_status s now true jid "success" (some "ok")
        (some "http://x") = (s', .ok (some j')) ∧
      get_job_status s' jid = some j' ∧
      j'.status = "success" ∧
      j'.result_message = some "ok" ∧
      j'.notion_page_url = some "http://x" ∧
      j'.completed_at = some now ∧
      j'.completed_at ≠ none := by
  refine ⟨s.map fun x => if x.job_id == jid then
      updatedLog j now "success" (some "ok") (some "http://x") else x,
    updatedLog j now "success" (some "ok") (some "http://x"), ?_, ?_,
    rfl, by simp [updatedLog, strTruthy], by simp [updatedLog, strTruthy],
    rfl, by simp [updatedLog]⟩
  · simp [update_job_status, hfound]
  · exact dbGet_map_replace s jid j _ hfound (dbGet_job_id s jid j hfound)

/-- C8 witness at a concrete input. -/
theorem roundtrip_success_status_witness :
    ∃ s' j', update_job_status [⟨4, "queued", none, none, 0, none, none,
        none⟩] 6 true 4 "success" (some "ok") (some "http://x")
        = (s', .ok (some j')) ∧
      get_job_status s' 4 = some j' ∧
      j'.status = "success" ∧
      j'.result_message = some "ok" ∧
      j'.notion_page_url = some "http://x" ∧
      j'.completed_at = some 6 ∧
      j'.completed_at ≠ none :=
  roundtrip_success_status [⟨4, "queued", none, none, 0, none, none, none⟩] 6
    4 ⟨4, "queued", none, none, 0, none, none, none⟩ (by decide)

/-! ### Claims about the Callback Ingress -/

/-- C5 counterexample: the status value `"banana"` is outside the allowed
set, yet the callback payload parses (its `status` field is a plain
required string) and `job_callback` writes it into the Job Record Store:
the record's stored status becomes `"banana"`. The claim that any other
status value is rejected and does not reach the store is therefore false
on the code. -/
theorem arbitrary_status_reaches_store :
    "banana" ≠ "success" ∧ "banana" ≠ "failure" ∧ "banana" ≠ "processing" ∧
    parseCallbackPayload (some "banana") none none =
      .ok ⟨"banana", none, none⟩ ∧
    job_callback [⟨1, "queued", none, none, 0, none, none, none⟩] 5 true 1
        ⟨"banana", none, none⟩ =
      ([⟨1, "banana", none, none, 0, some 5, none, none⟩], .ok 1 "banana") ∧
    dbGet [⟨1, "banana", none, none, 0, some 5, none, none⟩] 1 =
      some ⟨1, "banana", none, none, 0, some 5, none, none⟩ := by
  refine ⟨by decide, by decide, by decide, rfl, rfl, by decide⟩

/-- C5 amended: the callback path validates only that `status` is present
(a required string field of `JobCallbackPayload`); it does not restrict
its value — every string status, the values outside
`{success, failure, processing}` included, is accepted and written
unchanged into the Job Record Store. -/
theorem callback_status_not_validated (st : String) (msg url : Option String)
    (s : Store) (now : Nat) (jid : Nat) (j : JobLog)
    (hfound : dbGet s jid = some j) :
    parseCallbackPayload (some st) msg url = .ok ⟨st, msg, url⟩ ∧
    parseCallbackPayload none msg url = .error "field required: status" ∧
    ∃ s', job_callback s now true jid ⟨st, msg, url⟩ = (s', .ok jid st) ∧
      ∃ j', dbGet s' jid = some j' ∧ j'.status = st := by
  refine ⟨rfl, rfl, s.map fun x => if x.job_id == jid then
      updatedLog j now st msg url else x, ?_, updatedLog j now st msg url,
    ?_, rfl⟩
  · unfold job_callback
    rw [update_job_status_found s now jid st msg url j hfound]
  · exact dbGet_map_replace s jid j _ hfound (dbGet_job_id s jid j hfound)

/-- C5 amended witness at a concrete input. -/
theorem callback_status_not_validated_witness :
    parseCallbackPayload (some "weird") (some "m") none =
      .ok ⟨"weird", some "m", none⟩ ∧
    parseCallbackPayload none (some "m") none =
      .error "field required: status" ∧
    ∃ s', job_callback [⟨6, "queued", none, none, 0, none, none, none⟩] 9 true
        6 ⟨"weird", some "m", none⟩ = (s', .ok 6 "weird") ∧
      ∃ j', dbGet s' 6 = some j' ∧ j'.status = "weird" :=
  callback_status_not_validated "weird" (some "m") none
    [⟨6, "queued", none, none, 0, none, none, none⟩] 9 6
    ⟨6, "queued", none, none, 0, none, none, none⟩ (by decide)

/-- C10: a store operation that raises leaves the committed rows exactly
as they were — the duplicate-create conflict and any commit refused by
the storage engine both roll back before the error propagates — and
`update_job_status` on an unknown `job_id` returns not-found without
writing anything. -/
theorem storage_error_atomic_rollback (s : Store) (now : Nat)
    (commitOk : Bool) (jid : Nat) (fn ndb : Option String) (st : String)
    (msg url : Option String) (e₁ e₂ : DbError) :
    ((create_job_log s now commitOk jid fn ndb).2 = .error e₁ →
      (create_job_log s now commitOk jid fn ndb).1 = s) ∧
    ((update_job_status s now commitOk jid st msg url).2 = .error e₂ →
      (update_job_status s now commitOk jid st msg url).1 = s) ∧
    (dbGet s jid = none →
      update_job_status s now commitOk jid st msg url = (s, .ok none)) := by
  refine ⟨?_, ?_, ?_⟩
  · intro h
    rcases hg : dbGet s jid with _ | j <;> cases commitOk <;>
      simp [create_job_log, hg] at h ⊢
  · intro h
    rcases hg : dbGet s jid with _ | j <;> cases commitOk <;>
      simp [update_job_status, hg] at h ⊢
  · intro h
    cases commitOk <;> simp [update_job_status, h]

/-- C10 witness at concrete inputs: a refused commit on create, a refused
commit on update, and an update of an unknown id. -/
theorem storage_error_atomic_rollback_witness :
    (create_job_log [] 0 false 1 none none).1 = [] ∧
    (update_job_status [⟨1, "queued", none, none, 0, none, none, none⟩] 5
      false 1 "success" none none).1 =
      [⟨1, "queued", none, none, 0, none, none, none⟩] ∧
    update_job_status [] 5 true 2 "success" none none = ([], .ok none) :=
  ⟨(storage_error_atomic_rollback [] 0 false 1 none none "success" none none
      (.storageError "create_job_log") (.storageError "update_job_status")).1
      rfl,
    (storage_error_atomic_rollback
      [⟨1, "queued", none, none, 0, none, none, none⟩] 5 false 1 none none
      "success" none none (.storageError "create_job_log")
      (.storageError "update_job_status")).2.1 rfl,
    (storage_error_atomic_rollback [] 5 true 2 none none "success" none none
      (.storageError "create_job_log")
      (.storageError "update_job_status")).2.2 (by decide)⟩

/-! ### Claims about the Broker Client -/

/-- The total time `_initialize_connection` sleeps over `r` consecutive
failing attempts starting at attempt index `a`: the source sleeps
`backoffDelay` after a failed attempt only while `attempt <
max_retries - 1`. -/
def sumDelays (cfg : RetryConfig) : (a r : Nat) → Nat
  | _, 0 => 0
  | a, r + 1 =>
    (if a < cfg.max_retries - 1 then backoffDelay cfg a else 0) +
      sumDelays cfg (a + 1) r

lemma initializeConnectionAux_allFail (cfg : RetryConfig)
    (f : Nat → Option String) (h : ∀ i, (f i).isSome) :
    ∀ r a last attempts delay, 0 < r →
      initializeConnectionAux cfg f a r last attempts delay =
        .failed (f (a + r - 1)) (attempts + r) (delay + sumDelays cfg a r) := by
  intro r
  induction r with
  | zero => intro a last attempts delay h0; omega
  | succ r ih =>
    intro a last attempts delay _
    obtain ⟨e, he⟩ := Option.isSome_iff_exists.mp (h a)
    cases r with
    | zero =>
      simp [initializeConnectionAux, he, sumDelays]
    | succ r' =>
      rw [initializeConnectionAux, he]
      dsimp only
      rw [ih (a + 1) (some e) (attempts + 1) _ (Nat.succ_pos r')]
      simp only [sumDelays]
      congr 1
      · congr 1
        omega
      · omega
      · omega

lemma sumDelays_eq_range (cfg : RetryConfig) :
    ∀ r a, a + r = cfg.max_retries →
      sumDelays cfg a r =
        ((List.range (r - 1)).map (fun j => backoffDelay cfg (a + j))).sum := by
  intro r
  induction r with
  | zero => intro a _; simp [sumDelays]
  | succ r ih =>
    intro a ha
    cases r with
    | zero =>
      have : ¬ a < cfg.max_retries - 1 := by omega
      simp [sumDelays, this]
    | succ r' =>
      have hlt : a < cfg.max_retries - 1 := by omega
      rw [sumDelays, if_pos hlt, ih (a + 1) (by omega)]
      simp only [Nat.succ_sub_one, List.range_succ_eq_map, List.map_cons,
        List.map_map, List.sum_cons, Nat.add_zero]
      congr 1
      have hmap : List.map (fun j => backoffDelay cfg (a + 1 + j))
          (List.range r')
          = List.map ((fun j => backoffDelay cfg (a + j)) ∘ Nat.succ)
            (List.range r') := by
        apply List.map_congr_left
        intro j _
        simp only [Function.comp_apply]
        congr 1
        omega
      rw [hmap]

/-- C1 amended: with always-failing connection attempts,
`_initialize_connection` raises `QueueConnectionError` after exactly
`max_retries` attempts, carrying the last underlying error, and the
total elapsed backoff delay is `sum(min(initial_delay * 2^i, max_delay))`
for `i` in `0..max_retries-2` — the loop never sleeps after the final
attempt, so the claimed range `0..max_retries-1` overcounts by the last
term. -/
theorem connect_retry_exhaustion (cfg : RetryConfig)
    (f : Nat → Option String) (hfail : ∀ i, (f i).isSome)
    (hpos : 0 < cfg.max_retries) :
    initializeConnection cfg f =
      .failed (f (cfg.max_retries - 1)) cfg.max_retries
        (((List.range (cfg.max_retries - 1)).map (backoffDelay cfg)).sum) := by
  unfold initializeConnection
  rw [initializeConnectionAux_allFail cfg f hfail cfg.max_retries 0 none 0 0
    hpos]
  rw [sumDelays_eq_range cfg cfg.max_retries 0 (by omega)]
  simp

/-- C1 amended witness: defaults (3 retries, 1s initial, 30s cap) with
attempts that always fail — 3 attempts, last error carried, 1s + 2s = 3s
total backoff. -/
theorem connect_retry_exhaustion_witness :
    initializeConnection {} (fun _ => some "err") =
      .failed (some "err") 3 3 :=
  (connect_retry_exhaustion {} (fun _ => some "err") (fun _ => rfl)
    (by decide)).trans (by decide)

/-- C1 counterexample: with the default configuration and always-failing
attempts the code sleeps 1s + 2s = 3s in total (no sleep follows the
final attempt), while the claimed formula summed over
`i in 0..max_retries-1` gives 1 + 2 + 4 = 7; the claimed total elapsed
delay is therefore false at this input. -/
theorem connect_delay_claim_refuted :
    initializeConnection {} (fun _ => some "refused") =
      .failed (some "refused") 3 3 ∧
    ((List.range 3).map (backoffDelay {})).sum = 7 ∧
    (3 : Nat) ≠ 7 := by
  refine ⟨by decide, by decide, by decide⟩

/-- C2: on an initialized client whose first enqueue hits a connectivity
error, exactly one reconnect-plus-retry cycle runs: if the reconnect
succeeds and the retried enqueue succeeds, `enqueue_job` returns
successfully after one reconnect cycle and two enqueue calls; if the
retry fails (or the reconnect itself exhausts its retries), it raises
`JobEnqueueError` with still exactly one reconnect cycle; and no
`enqueue_job` call ever performs more than one reconnect cycle. -/
theorem reconnect_retry_bound (cfg : RetryConfig) (env : BrokerEnv)
    (e : String) (hfail : env.firstEnqueue = .connErr e) :
    ((∃ a d, initializeConnection cfg env.reconnect = .connected a d) →
      (env.retryEnqueue = .ok → enqueue_job true cfg env = ⟨.success, 1, 2⟩) ∧
      (env.retryEnqueue ≠ .ok →
        (enqueue_job true cfg env).outcome = .enqueueError ∧
        (enqueue_job true cfg env).reconnectCalls = 1)) ∧
    ((∀ a d, initializeConnection cfg env.reconnect ≠ .connected a d) →
      (enqueue_job true cfg env).outcome = .enqueueError ∧
      (enqueue_job true cfg env).reconnectCalls = 1) ∧
    (∀ env' : BrokerEnv, (enqueue_job true cfg env').reconnectCalls ≤ 1) := by
  refine ⟨?_, ?_, ?_⟩
  · rintro ⟨a, d, hconn⟩
    constructor
    · intro hok
      simp [enqueue_job, hfail, hconn, hok]
    · intro hnok
      rcases hr : env.retryEnqueue with _ | e' | e'
      · exact absurd hr hnok
      · simp [enqueue_job, hfail, hconn, hr]
      · simp [enqueue_job, hfail, hconn, hr]
  · intro hno
    rcases hconn : initializeConnection cfg env.reconnect with ⟨a, d⟩ |
      ⟨le, a, d⟩
    · exact absurd hconn (hno a d)
    · simp [enqueue_job, hfail, hconn]
  · intro env'
    rcases hf : env'.firstEnqueue with _ | e' | e'
    · simp [enqueue_job, hf]
    · rcases hconn : initializeConnection cfg env'.reconnect with ⟨a, d⟩ |
        ⟨le, a, d⟩
      · rcases hr : env'.retryEnqueue <;>
          simp [enqueue_job, hf, hconn, hr]
      · simp [enqueue_job, hf, hconn]
    · simp [enqueue_job, hf]

/-- C2 witness at concrete inputs: a reconnect that succeeds followed by
a successful retry; and a failing retry that raises after exactly one
reconnect cycle. -/
theorem reconnect_retry_bound_witness :
    enqueue_job true {} ⟨.connErr "down", fun _ => none, .ok⟩ =
      ⟨.success, 1, 2⟩ ∧
    (enqueue_job true {} ⟨.connErr "down", fun _ => none,
        .connErr "still down"⟩).outcome = .enqueueError ∧
    (enqueue_job true {} ⟨.connErr "down", fun _ => none,
        .connErr "still down"⟩).reconnectCalls = 1 :=
  ⟨((reconnect_retry_bound {} ⟨.connErr "down", fun _ => none, .ok⟩ "down"
      rfl).1 ⟨1, 0, rfl⟩).1 rfl,
    (((reconnect_retry_bound {} ⟨.connErr "down", fun _ => none,
      .connErr "still down"⟩ "down" rfl).1 ⟨1, 0, rfl⟩).2 (by decide)).1,
    (((reconnect_retry_bound {} ⟨.connErr "down", fun _ => none,
      .connErr "still down"⟩ "down" rfl).1 ⟨1, 0, rfl⟩).2 (by decide)).2⟩
